import Mathlib

/-!
Verification development for the AlphaForge quality-screening engine
(src/quality_filters/weschler_filters.py together with src/config.py and the
collaborator boundaries it reads from).  The Python code is shallowly
embedded: every evaluator of the WeschlerQualityFilters class becomes a pure
Lean function over an explicit snapshot of the rows the code reads from the
SQLite database.  Numbers stored as SQL REAL are embedded as exact rationals
(the engine only compares and floor-divides them; no float rounding is
exercised by the properties below), SQL INTEGER as Int, SQL NULL as none.
A Python dictionary lookup with a .get default is embedded by applying that
default.  A comparison of None with a number raises TypeError in Python; every
evaluator body is wrapped in a broad try/except that turns such an exception
into "no finding", so the none branch of the corresponding match returns the
accumulator unchanged.  The untyped filter_details audit map, log output and
timestamps are not modelled: no property below mentions them and the engine
never reads them back.
-/

/-! ### Python substring containment (the `in` operator on str) -/

/-- Does the pattern match at the head of the character list? -/
def subAt : List Char → List Char → Bool
  | [], _ => true
  | _ :: _, [] => false
  | p :: ps, c :: cs => p == c && subAt ps cs

/-- Scan every suffix for a head match, exactly like Python substring search. -/
def subSearch (pat : List Char) : List Char → Bool
  | [] => pat.isEmpty
  | c :: cs => subAt pat (c :: cs) || subSearch pat cs

/-- Embedding of the Python expression `pat in s` on strings. -/
def hasSub (s pat : String) : Bool :=
  subSearch pat.data s.data

/-- Python str.upper on the underlying code points (kernel-friendly form of
String.toUpper, which it agrees with). -/
def strUpper (s : String) : String :=
  String.mk (s.data.map Char.toUpper)

/-- Python slicing s[:n] by code points (kernel-friendly form of
String.take). -/
def strTake (s : String) (n : Nat) : String :=
  String.mk (s.data.take n)

/-- Comma-joining of a string list (kernel-friendly form of
String.intercalate, which it agrees with). -/
def strJoin (sep : String) : List String → String
  | [] => ""
  | x :: xs => xs.foldl (fun acc y => acc ++ sep ++ y) x

/-! ### Configuration (src/config.py, get_filter_config / get_scoring_config) -/

/-- Embedding of Config.get_scoring_config: the nine penalty weights. -/
structure ScoringConfig where
  sec_filing_penalty : Int
  fcf_penalty : Int
  operating_loss_penalty : Int
  high_debt_penalty : Int
  negative_equity_penalty : Int
  low_volume_penalty : Int
  otc_penalty : Int
  news_red_flag_penalty : Int
  corporate_action_penalty : Int

/-- Default scoring weights from src/config.py (SCORE_* environment defaults). -/
def defaultScoringConfig : ScoringConfig :=
  { sec_filing_penalty := -20
    fcf_penalty := -10
    operating_loss_penalty := -8
    high_debt_penalty := -15
    negative_equity_penalty := -12
    low_volume_penalty := -5
    otc_penalty := -3
    news_red_flag_penalty := -7
    corporate_action_penalty := -5 }

/-- Embedding of Config.get_filter_config: the four filter thresholds. -/
structure FilterConfig where
  max_debt_to_ebitda : ℚ
  min_trading_volume : Int
  fcf_negative_years_threshold : Nat
  operating_income_negative_years_threshold : Nat

/-- Default thresholds from src/config.py. -/
def defaultFilterConfig : FilterConfig :=
  { max_debt_to_ebitda := 5
    min_trading_volume := 50000
    fcf_negative_years_threshold := 4
    operating_income_negative_years_threshold := 4 }

/-! ### Data model: the rows the engine reads -/

/-- One financial_statements row body: the stored JSON either fails to parse
(json.loads raises JSONDecodeError) or yields a line-item map, embedded as an
association list with unique keys. -/
inductive StmtData where
  | malformed : StmtData
  | parsed : List (String × ℚ) → StmtData

/-- One news row as read by _get_news_red_flags: headline plus the parse of the
red_flag_keywords JSON column (none means json.loads raised, the row is
skipped). -/
structure NewsRow where
  headline : String
  keywords : Option (List String)

/-- The companies row as the dict produced by _get_company_data, after the
.get defaults used by the evaluators have been applied.  exchange,
net_debt_ebitda, shareholder_equity and avg_daily_volume are nullable columns;
none is SQL NULL.  The split-detection entries are not columns of the deployed
companies table, so dict.get gives them their defaults (false / 0 / []) in the
deployed flow; they are kept as explicit fields because the corporate-action
evaluator reads them from whatever dict it is handed.  The recent_splits list
is only ever logged, so it is omitted.  red_flags_list, disqualified_flag and
weschler_quality_score are the persisted screening results (re-written by
_update_company_filtering_results; JSON serialization of the flag list is not
modelled because the engine never reads it back). -/
structure CompanyRow where
  id : Int
  symbol : String
  exchange : Option String
  net_debt_ebitda : Option ℚ
  shareholder_equity : Option ℚ
  avg_daily_volume : Option Int
  has_recent_splits : Bool
  split_count : Nat
  corporate_action_flags : List String
  potential_action_detected : Bool
  red_flags_list : Option (List String)
  disqualified_flag : Int
  weschler_quality_score : Int

/-- Everything the screening of one company reads: the companies row, the
filing-presence map computed by EdgarProcessor.check_recent_filings (external
collaborator), and the financial_statements / news rows for the company, each
list already ordered the way the SQL queries order them (fiscal_year DESC,
respectively published_date DESC with red_flag_keywords not equal to the empty
JSON array). -/
structure DBState where
  company : CompanyRow
  filing_status : List (String × Bool)
  cash_flow_stmts : List (Int × StmtData)
  income_stmts : List (Int × StmtData)
  balance_stmts : List (Int × StmtData)
  news_rows : List NewsRow

/-- The filter_results dictionary built by apply_all_filters.  The
corporate_action_penalty key is absent from the initial dictionary and only
some evaluator branches set it, hence the Option. -/
structure FilterResults where
  company_id : Int
  symbol : String
  red_flags : List String
  disqualified : Bool
  quality_score : Int
  corporate_action_penalty : Option Int

/-- The initial filter_results dictionary of apply_all_filters. -/
def initResults (cid : Int) (sym : String) : FilterResults :=
  { company_id := cid
    symbol := sym
    red_flags := []
    disqualified := false
    quality_score := 0
    corporate_action_penalty := none }

/-- filter_results red_flags append of one finding. -/
def addFlag (res : FilterResults) (flag : String) : FilterResults :=
  { res with red_flags := res.red_flags ++ [flag] }

/-- Numeric rendering used in finding text.  Python formats these values with
%-style width/precision/grouping specifiers; only the category part of each
finding is ever inspected by the engine, so the rendering is simplified to
toString (exact for the integral values the properties below use). -/
def formatNumber (q : ℚ) : String := toString q

/-! ### Line-item extraction helpers -/

/-- Candidate FCF line items of _extract_fcf_from_statement. -/
def fcfItems : List String :=
  ["Free Cash Flow", "FreeCashFlow", "Operating Cash Flow",
   "OperatingCashFlow", "Net Cash from Operations"]

/-- Candidate line items of _extract_operating_income_from_statement. -/
def operatingItems : List String :=
  ["Operating Income", "OperatingIncome", "EBIT",
   "Operating Profit", "Income from Operations"]

/-- Candidate line items of _extract_total_debt_from_statement. -/
def debtItems : List String :=
  ["Total Debt", "TotalDebt", "Long Term Debt",
   "Short Term Debt", "Total Liabilities"]

/-- Candidate line items of _extract_revenue_from_statement. -/
def revenueItems : List String :=
  ["Total Revenue", "TotalRevenue", "Revenue", "Net Sales", "Sales"]

/-- Shared shape of the four _extract_*_from_statement helpers: try each
candidate key in order, return the first present value, else 0.0. -/
def extractFromStatement (keys : List String) (stmt : List (String × ℚ)) : ℚ :=
  match keys with
  | [] => 0
  | k :: ks =>
    match stmt.lookup k with
    | some v => v
    | none => extractFromStatement ks stmt

/-- The row loop of _get_historical_fcf_data: skip rows whose JSON fails to
parse, extract the FCF of the rest. -/
def parseFcfRows (rows : List (Int × StmtData)) : List (Int × ℚ) :=
  rows.filterMap fun r =>
    match r.2 with
    | StmtData.malformed => none
    | StmtData.parsed items => some (r.1, extractFromStatement fcfItems items)

/-- _get_historical_fcf_data: the 5 newest cash-flow rows (ORDER BY fiscal_year
DESC LIMIT 5) fed through the row loop. -/
def getHistoricalFcfData (rows : List (Int × StmtData)) : List (Int × ℚ) :=
  parseFcfRows (rows.take 5)

/-- The row loop of _get_historical_operating_income_data. -/
def parseOperatingRows (rows : List (Int × StmtData)) : List (Int × ℚ) :=
  rows.filterMap fun r =>
    match r.2 with
    | StmtData.malformed => none
    | StmtData.parsed items =>
      some (r.1, extractFromStatement operatingItems items)

/-- _get_historical_operating_income_data: same LIMIT 5 shape on income rows. -/
def getHistoricalOperatingIncomeData (rows : List (Int × StmtData)) :
    List (Int × ℚ) :=
  parseOperatingRows (rows.take 5)

/-- _get_revenue_growth: the 2 newest income rows; any parse failure is caught
by the enclosing handler and yields 0.0, as does a missing second row or a
non-positive previous revenue. -/
def getRevenueGrowth (incomeRows : List (Int × StmtData)) : ℚ :=
  match incomeRows.take 2 with
  | r0 :: r1 :: _ =>
    match r0.2, r1.2 with
    | StmtData.parsed cur, StmtData.parsed prev =>
      let currentRevenue := extractFromStatement revenueItems cur
      let previousRevenue := extractFromStatement revenueItems prev
      if 0 < previousRevenue then
        ((currentRevenue - previousRevenue) / previousRevenue) * 100
      else 0
    | _, _ => 0
  | _ => 0

/-- _get_debt_growth_data: year-over-year total-debt growth from the 2 newest
balance-sheet rows plus the revenue growth; None when fewer than 2 rows exist
or a statement fails to parse (the exception path of its try block). -/
def getDebtGrowthData (balanceRows incomeRows : List (Int × StmtData)) :
    Option (ℚ × ℚ) :=
  match balanceRows.take 2 with
  | r0 :: r1 :: _ =>
    match r0.2, r1.2 with
    | StmtData.parsed cur, StmtData.parsed prev =>
      let currentDebt := extractFromStatement debtItems cur
      let previousDebt := extractFromStatement debtItems prev
      let yoyGrowth : ℚ :=
        if 0 < previousDebt then
          ((currentDebt - previousDebt) / previousDebt) * 100
        else 0
      some (yoyGrowth, getRevenueGrowth incomeRows)
    | _, _ => none
  | _ => none

/-- _get_news_red_flags: the 10 newest qualifying news rows (LIMIT 10),
skipping rows whose keyword JSON fails to parse, one (keyword, headline) pair
per stored keyword. -/
def getNewsRedFlags (rows : List NewsRow) : List (String × String) :=
  (rows.take 10).foldl
    (fun acc r =>
      match r.keywords with
      | none => acc
      | some kws => acc ++ kws.map fun k => (k, r.headline))
    []

/-! ### The nine rule evaluators -/

/-- The required filing types of _apply_sec_filing_filter. -/
def requiredFilings : List String := ["10-K", "10-Q", "8-K"]

/-- The missing_filings list: required types whose presence flag is absent or
false (dict.get with default False). -/
def missingFilings (status : List (String × Bool)) : List String :=
  requiredFilings.filter fun t => !((status.lookup t).getD false)

/-- _apply_sec_filing_filter: one finding naming every missing type, and the
only write anywhere of disqualified = True. -/
def secFilingFilter (status : List (String × Bool)) (res : FilterResults) :
    FilterResults :=
  let missing := missingFilings status
  if missing.isEmpty then res
  else
    { addFlag res ("No Recent SEC Filings: " ++ strJoin ", " missing)
      with disqualified := true }

/-- _apply_fcf_consistency_filter, applied to the fcf values of the rows of
_get_historical_fcf_data (fiscal_year DESC, newest first).  Note the Python
slice fcf_data[-3:] takes the LAST three entries of that newest-first list,
embedded here as dropping all but the 3 trailing entries. -/
def fcfConsistencyFilter (th : Nat) (fcfData : List ℚ) (res : FilterResults) :
    FilterResults :=
  if fcfData.isEmpty then res
  else
    let negativeYears := fcfData.countP fun x => decide (x < 0)
    let totalYears := fcfData.length
    let res1 :=
      if th ≤ negativeYears ∧ 5 ≤ totalYears then
        addFlag res ("Persistent Negative FCF: " ++
          (toString negativeYears ++ "/" ++ toString totalYears ++ " years"))
      else res
    if 3 ≤ fcfData.length then
      let recent := fcfData.drop (fcfData.length - 3)
      if recent.all (fun x => decide (x < 0)) ∧ recent.getLastD 0 < recent.headD 0
      then addFlag res1 "Accelerating Negative FCF Trend"
      else res1
    else res1

/-- _apply_operating_income_filter on the operating-income values (newest
first). -/
def operatingIncomeFilter (th : Nat) (data : List ℚ) (res : FilterResults) :
    FilterResults :=
  if data.isEmpty then res
  else
    let negativeYears := data.countP fun x => decide (x < 0)
    let totalYears := data.length
    if th ≤ negativeYears ∧ 5 ≤ totalYears then
      addFlag res ("Persistent Operating Losses: " ++
        (toString negativeYears ++ "/" ++ toString totalYears ++ " years"))
    else res

/-- First sub-check of _apply_debt_analysis_filter.  Python guards with the
truthiness of net_debt_ebitda, so both None and 0.0 skip the check. -/
def highDebtCheck (maxD : ℚ) (nde : Option ℚ) (res : FilterResults) :
    FilterResults :=
  match nde with
  | none => res
  | some v =>
    if v ≠ 0 ∧ maxD < v then
      addFlag res ("High Debt Burden: Net Debt/EBITDA = " ++ formatNumber v)
    else res

/-- Second sub-check of _apply_debt_analysis_filter on the debt-growth data. -/
def rapidDebtGrowthCheck (g : Option (ℚ × ℚ)) (res : FilterResults) :
    FilterResults :=
  match g with
  | none => res
  | some p =>
    if 50 < p.1 ∧ p.2 < p.1 / 2 then
      addFlag res ("Rapid Debt Growth: " ++ formatNumber p.1 ++
        "% vs Revenue " ++ formatNumber p.2 ++ "%")
    else res

/-- _apply_debt_analysis_filter: the two sub-checks in source order. -/
def debtAnalysisFilter (maxD : ℚ) (nde : Option ℚ) (g : Option (ℚ × ℚ))
    (res : FilterResults) : FilterResults :=
  rapidDebtGrowthCheck g (highDebtCheck maxD nde res)

/-- _apply_balance_sheet_filter.  A NULL shareholder_equity column reaches the
comparison as None, which raises TypeError; the broad handler catches it, so
the none branch abstains. -/
def balanceSheetFilter (eqv : Option ℚ) (res : FilterResults) : FilterResults :=
  match eqv with
  | none => res
  | some v =>
    if v < 0 then
      addFlag res ("Negative Shareholder Equity: $" ++ formatNumber v)
    else res

/-- _apply_liquidity_filter.  As above, a NULL avg_daily_volume raises at the
comparison and the handler catches it: the none branch abstains (the absent
value is NOT treated as zero). -/
def liquidityFilter (minVol : Int) (vol : Option Int) (res : FilterResults) :
    FilterResults :=
  match vol with
  | none => res
  | some v =>
    if v < minVol then
      addFlag res ("Low Trading Volume: " ++ toString v ++ " shares/day")
    else res

/-- The OTC indicator list of _apply_exchange_filter. -/
def otcIndicators : List String :=
  ["PNK", "OEM", "OQX", "OTC", "OTCQB", "OTCQX"]

/-- _apply_exchange_filter.  A NULL exchange raises at .upper() and the handler
catches it; otherwise the uppercased code is searched for any indicator. -/
def exchangeFilter (exch : Option String) (res : FilterResults) :
    FilterResults :=
  match exch with
  | none => res
  | some e =>
    let ex := strUpper e
    if otcIndicators.any (fun ind => hasSub ex ind) then
      addFlag res ("OTC Exchange: " ++ ex)
    else res

/-- _apply_news_red_flag_filter body: one finding per (keyword, headline)
pair, headline truncated to 100 characters followed by a literal ellipsis. -/
def newsRedFlagFilter (pairs : List (String × String)) (res : FilterResults) :
    FilterResults :=
  pairs.foldl
    (fun r p =>
      addFlag r ("News Red Flag - " ++ p.1 ++ ": " ++ strTake p.2 100 ++ "..."))
    res

/-- The per-flag dedup loop of _apply_corporate_action_filter: append each
supplied flag unless it is already present. -/
def appendFlagsUnique (res : FilterResults) (flags : List String) :
    FilterResults :=
  { res with red_flags :=
      (flags.foldl (fun acc f => if f ∈ acc then acc else acc ++ [f])
        res.red_flags) }

/-- _apply_corporate_action_filter.  Confirmed detections store the full
configured penalty in the corporate_action_penalty key, potential-only
detections store the Python floor division of that penalty by 2, the branch
with has_recent_splits set but split_count = 0 and no potential detection
stores nothing, and no detection at all stores 0. -/
def corporateActionFilter (cfg : ScoringConfig) (c : CompanyRow)
    (res : FilterResults) : FilterResults :=
  if c.has_recent_splits || c.potential_action_detected then
    if c.has_recent_splits && decide (0 < c.split_count) then
      { appendFlagsUnique res c.corporate_action_flags with
        corporate_action_penalty := some cfg.corporate_action_penalty }
    else if c.potential_action_detected then
      { appendFlagsUnique res c.corporate_action_flags with
        corporate_action_penalty :=
          some (Int.fdiv cfg.corporate_action_penalty 2) }
    else res
  else { res with corporate_action_penalty := some 0 }

/-! ### Score aggregation -/

/-- The substring classification of _calculate_quality_score: the first
matching category determines the penalty, an unmatched finding contributes 0.
Note that the corporate-action branch adds the static configured constant,
not the per-evaluation value stored in filter_results. -/
def flagPenalty (cfg : ScoringConfig) (flag : String) : Int :=
  if hasSub flag "No Recent SEC Filings" then cfg.sec_filing_penalty
  else if hasSub flag "Persistent Negative FCF" then cfg.fcf_penalty
  else if hasSub flag "Persistent Operating Losses" then
    cfg.operating_loss_penalty
  else if hasSub flag "High Debt Burden" then cfg.high_debt_penalty
  else if hasSub flag "Negative Shareholder Equity" then
    cfg.negative_equity_penalty
  else if hasSub flag "Low Trading Volume" then cfg.low_volume_penalty
  else if hasSub flag "OTC Exchange" then cfg.otc_penalty
  else if hasSub flag "News Red Flag" then cfg.news_red_flag_penalty
  else if hasSub flag "Corporate Action" then cfg.corporate_action_penalty
  else 0

/-- _calculate_quality_score: base 100 plus every penalty, floored at 0. -/
def calculateQualityScore (cfg : ScoringConfig) (flags : List String) : Int :=
  max 0 (flags.foldl (fun s f => s + flagPenalty cfg f) 100)

/-! ### Orchestrator and persistence -/

/-- apply_all_filters: the nine evaluators in source order, then the score. -/
def applyAllFilters (cfg : ScoringConfig) (fcfg : FilterConfig) (s : DBState) :
    FilterResults :=
  let c := s.company
  let r1 := secFilingFilter s.filing_status (initResults c.id c.symbol)
  let r2 := fcfConsistencyFilter fcfg.fcf_negative_years_threshold
    ((getHistoricalFcfData s.cash_flow_stmts).map Prod.snd) r1
  let r3 := operatingIncomeFilter fcfg.operating_income_negative_years_threshold
    ((getHistoricalOperatingIncomeData s.income_stmts).map Prod.snd) r2
  let r4 := debtAnalysisFilter fcfg.max_debt_to_ebitda c.net_debt_ebitda
    (getDebtGrowthData s.balance_stmts s.income_stmts) r3
  let r5 := balanceSheetFilter c.shareholder_equity r4
  let r6 := liquidityFilter fcfg.min_trading_volume c.avg_daily_volume r5
  let r7 := exchangeFilter c.exchange r6
  let r8 := newsRedFlagFilter (getNewsRedFlags s.news_rows) r7
  let r9 := corporateActionFilter cfg c r8
  { r9 with quality_score := calculateQualityScore cfg r9.red_flags }

/-- _update_company_filtering_results: overwrite the persisted flag list,
disqualified flag (as 0/1) and score on the companies row; nothing else. -/
def writeResults (s : DBState) (res : FilterResults) : DBState :=
  { s with company :=
      { s.company with
        red_flags_list := some res.red_flags
        disqualified_flag := if res.disqualified then 1 else 0
        weschler_quality_score := res.quality_score } }

/-- One orchestrator run: compute the result and persist it. -/
def runScreening (cfg : ScoringConfig) (fcfg : FilterConfig) (s : DBState) :
    FilterResults × DBState :=
  (applyAllFilters cfg fcfg s, writeResults s (applyAllFilters cfg fcfg s))

/-! ### Batch runner (process_all_companies) -/

/-- Outcome of apply_all_filters for one company as the batch loop sees it:
a truthy result dict, the empty dict (snapshot load failed), or an exception
raised inside the iteration and caught by its broad handler. -/
inductive RunOutcome where
  | ok : FilterResults → RunOutcome
  | empty : RunOutcome
  | raised : RunOutcome

/-- The truthiness test `if filter_results:` of the batch loop. -/
def outcomeIsSuccess : RunOutcome → Bool
  | RunOutcome.ok _ => true
  | RunOutcome.empty => false
  | RunOutcome.raised => false

/-- The summary dict of process_all_companies.  total is Option because the
early return for an empty company list omits that key. -/
structure BatchSummary where
  processed : Nat
  errors : Nat
  total : Option Nat

/-- Did this iteration raise an exception into the in-loop handler? -/
def outcomeRaised : RunOutcome → Bool
  | RunOutcome.ok _ => false
  | RunOutcome.empty => false
  | RunOutcome.raised => true

/-- The for-loop of process_all_companies.  A truthy result increments
processed_count, an empty result increments error_count, and both continue
with the next company.  An exception is caught by the in-loop handler, which
increments error_count but then itself raises: the company row is a
sqlite3.Row (row_factory set in DatabaseManager.connect), which has no .get
method, so evaluating company.get in the handler's log call raises
AttributeError out of the loop; the outer handler returns the literal summary
processed 0, errors 1 (again without the total key), discarding the
accumulated counts and never screening the remaining companies. -/
def batchLoop (total : Nat) : Nat → Nat → List RunOutcome → BatchSummary
  | p, e, [] => { processed := p, errors := e, total := some total }
  | p, e, o :: os =>
    match o with
    | RunOutcome.ok _ => batchLoop total (p + 1) e os
    | RunOutcome.empty => batchLoop total p (e + 1) os
    | RunOutcome.raised => { processed := 0, errors := 1, total := none }

/-- process_all_companies over the per-company outcomes, in order.  An empty
company list returns the two-key summary of the early-return branch. -/
def processAllCompanies (outcomes : List RunOutcome) : BatchSummary :=
  if outcomes.isEmpty then { processed := 0, errors := 0, total := none }
  else batchLoop outcomes.length 0 0 outcomes

/-! ### Helper lemmas -/

/-- A head match survives appending characters on the right. -/
lemma subAt_extend (p : List Char) :
    ∀ l m : List Char, subAt p l = true → subAt p (l ++ m) = true := by
  induction p with
  | nil => intro l m _; rfl
  | cons x xs ih =>
    intro l m h
    cases l with
    | nil => simp [subAt] at h
    | cons c cs =>
      simp only [subAt, Bool.and_eq_true] at h
      simp only [List.cons_append, subAt, Bool.and_eq_true]
      exact ⟨h.1, ih cs m h.2⟩

/-- A match at the head is in particular a match somewhere. -/
lemma subSearch_of_subAt (p s : List Char) (h : subAt p s = true) :
    subSearch p s = true := by
  cases s with
  | nil =>
    cases p with
    | nil => rfl
    | cons x xs => simp [subAt] at h
  | cons c cs => simp [subSearch, h]

/-- If the pattern matches at the head of a literal, it is a substring of the
literal followed by anything. -/
lemma hasSub_of_lit (lit x pat : String)
    (h : subAt pat.data lit.data = true) : hasSub (lit ++ x) pat = true := by
  have hdata : (lit ++ x).data = lit.data ++ x.data := by
    cases lit; cases x; rfl
  unfold hasSub
  rw [hdata]
  exact subSearch_of_subAt _ _ (subAt_extend _ _ _ h)

lemma addFlag_disqualified (res : FilterResults) (f : String) :
    (addFlag res f).disqualified = res.disqualified := rfl

lemma addFlag_penalty (res : FilterResults) (f : String) :
    (addFlag res f).corporate_action_penalty = res.corporate_action_penalty :=
  rfl

lemma mem_addFlag (res : FilterResults) (f a : String)
    (h : a ∈ res.red_flags) : a ∈ (addFlag res f).red_flags := by
  simp only [addFlag, List.mem_append]
  exact Or.inl h

lemma appendFlagsUnique_disqualified (res : FilterResults)
    (flags : List String) :
    (appendFlagsUnique res flags).disqualified = res.disqualified := rfl

lemma foldl_uniq_mem (a : String) :
    ∀ (flags : List String) (acc : List String), a ∈ acc →
      a ∈ flags.foldl (fun acc f => if f ∈ acc then acc else acc ++ [f]) acc := by
  intro flags
  induction flags with
  | nil => intro acc h; exact h
  | cons f fs ih =>
    intro acc h
    simp only [List.foldl_cons]
    by_cases hf : f ∈ acc
    · simp only [if_pos hf]; exact ih acc h
    · simp only [if_neg hf]
      exact ih _ (List.mem_append.mpr (Or.inl h))

lemma mem_appendFlagsUnique (res : FilterResults) (flags : List String)
    (a : String) (h : a ∈ res.red_flags) :
    a ∈ (appendFlagsUnique res flags).red_flags :=
  foldl_uniq_mem a flags res.red_flags h

lemma fcfConsistencyFilter_disqualified (th : Nat) (l : List ℚ)
    (res : FilterResults) :
    (fcfConsistencyFilter th l res).disqualified = res.disqualified := by
  unfold fcfConsistencyFilter
  dsimp only
  repeat' split
  all_goals rfl

lemma operatingIncomeFilter_disqualified (th : Nat) (l : List ℚ)
    (res : FilterResults) :
    (operatingIncomeFilter th l res).disqualified = res.disqualified := by
  unfold operatingIncomeFilter
  dsimp only
  repeat' split
  all_goals rfl

lemma highDebtCheck_disqualified (maxD : ℚ) (nde : Option ℚ)
    (res : FilterResults) :
    (highDebtCheck maxD nde res).disqualified = res.disqualified := by
  unfold highDebtCheck
  split
  · rfl
  · split <;> rfl

lemma rapidDebtGrowthCheck_disqualified (g : Option (ℚ × ℚ))
    (res : FilterResults) :
    (rapidDebtGrowthCheck g res).disqualified = res.disqualified := by
  unfold rapidDebtGrowthCheck
  split
  · rfl
  · split <;> rfl

lemma debtAnalysisFilter_disqualified (maxD : ℚ) (nde : Option ℚ)
    (g : Option (ℚ × ℚ)) (res : FilterResults) :
    (debtAnalysisFilter maxD nde g res).disqualified = res.disqualified := by
  unfold debtAnalysisFilter
  rw [rapidDebtGrowthCheck_disqualified, highDebtCheck_disqualified]

lemma balanceSheetFilter_disqualified (e : Option ℚ) (res : FilterResults) :
    (balanceSheetFilter e res).disqualified = res.disqualified := by
  unfold balanceSheetFilter
  split
  · rfl
  · split <;> rfl

lemma liquidityFilter_disqualified (m : Int) (v : Option Int)
    (res : FilterResults) :
    (liquidityFilter m v res).disqualified = res.disqualified := by
  unfold liquidityFilter
  split
  · rfl
  · split <;> rfl

lemma exchangeFilter_disqualified (e : Option String) (res : FilterResults) :
    (exchangeFilter e res).disqualified = res.disqualified := by
  unfold exchangeFilter
  dsimp only
  repeat' split
  all_goals rfl

lemma newsRedFlagFilter_disqualified (pairs : List (String × String)) :
    ∀ res : FilterResults,
      (newsRedFlagFilter pairs res).disqualified = res.disqualified := by
  induction pairs with
  | nil => intro res; rfl
  | cons p ps ih =>
    intro res
    simp only [newsRedFlagFilter, List.foldl_cons]
    exact (ih (addFlag res _)).trans (addFlag_disqualified _ _)

lemma corporateActionFilter_disqualified (cfg : ScoringConfig)
    (c : CompanyRow) (res : FilterResults) :
    (corporateActionFilter cfg c res).disqualified = res.disqualified := by
  unfold corporateActionFilter
  split
  · split
    · rfl
    · split <;> rfl
  · rfl

lemma mem_fcfConsistencyFilter (th : Nat) (l : List ℚ) (res : FilterResults)
    (a : String) (h : a ∈ res.red_flags) :
    a ∈ (fcfConsistencyFilter th l res).red_flags := by
  unfold fcfConsistencyFilter
  dsimp only
  repeat' split
  all_goals
    first
      | exact h
      | exact mem_addFlag _ _ _ h
      | exact mem_addFlag _ _ _ (mem_addFlag _ _ _ h)

lemma mem_operatingIncomeFilter (th : Nat) (l : List ℚ) (res : FilterResults)
    (a : String) (h : a ∈ res.red_flags) :
    a ∈ (operatingIncomeFilter th l res).red_flags := by
  unfold operatingIncomeFilter
  dsimp only
  repeat' split
  all_goals first | exact h | exact mem_addFlag _ _ _ h

lemma mem_highDebtCheck (maxD : ℚ) (nde : Option ℚ) (res : FilterResults)
    (a : String) (h : a ∈ res.red_flags) :
    a ∈ (highDebtCheck maxD nde res).red_flags := by
  unfold highDebtCheck
  repeat' split
  all_goals first | exact h | exact mem_addFlag _ _ _ h

lemma mem_rapidDebtGrowthCheck (g : Option (ℚ × ℚ)) (res : FilterResults)
    (a : String) (h : a ∈ res.red_flags) :
    a ∈ (rapidDebtGrowthCheck g res).red_flags := by
  unfold rapidDebtGrowthCheck
  repeat' split
  all_goals first | exact h | exact mem_addFlag _ _ _ h

lemma mem_debtAnalysisFilter (maxD : ℚ) (nde : Option ℚ)
    (g : Option (ℚ × ℚ)) (res : FilterResults) (a : String)
    (h : a ∈ res.red_flags) :
    a ∈ (debtAnalysisFilter maxD nde g res).red_flags :=
  mem_rapidDebtGrowthCheck _ _ _ (mem_highDebtCheck _ _ _ _ h)

lemma mem_balanceSheetFilter (e : Option ℚ) (res : FilterResults) (a : String)
    (h : a ∈ res.red_flags) : a ∈ (balanceSheetFilter e res).red_flags := by
  unfold balanceSheetFilter
  repeat' split
  all_goals first | exact h | exact mem_addFlag _ _ _ h

lemma mem_liquidityFilter (m : Int) (v : Option Int) (res : FilterResults)
    (a : String) (h : a ∈ res.red_flags) :
    a ∈ (liquidityFilter m v res).red_flags := by
  unfold liquidityFilter
  repeat' split
  all_goals first | exact h | exact mem_addFlag _ _ _ h

lemma mem_exchangeFilter (e : Option String) (res : FilterResults)
    (a : String) (h : a ∈ res.red_flags) :
    a ∈ (exchangeFilter e res).red_flags := by
  unfold exchangeFilter
  dsimp only
  repeat' split
  all_goals first | exact h | exact mem_addFlag _ _ _ h

lemma mem_newsRedFlagFilter (pairs : List (String × String)) :
    ∀ (res : FilterResults) (a : String), a ∈ res.red_flags →
      a ∈ (newsRedFlagFilter pairs res).red_flags := by
  induction pairs with
  | nil => intro res a h; exact h
  | cons p ps ih =>
    intro res a h
    simp only [newsRedFlagFilter, List.foldl_cons] at ih ⊢
    exact ih _ _ (mem_addFlag _ _ _ h)

lemma mem_corporateActionFilter (cfg : ScoringConfig) (c : CompanyRow)
    (res : FilterResults) (a : String) (h : a ∈ res.red_flags) :
    a ∈ (corporateActionFilter cfg c res).red_flags := by
  unfold corporateActionFilter
  repeat' split
  all_goals first | exact h | exact mem_appendFlagsUnique _ _ _ h

/-- The finding and disqualification behavior of the filing evaluator, for an
arbitrary accumulator. -/
lemma secFilingFilter_red_flags (st : List (String × Bool))
    (res : FilterResults) :
    (secFilingFilter st res).red_flags =
      (if (missingFilings st).isEmpty then res.red_flags
       else res.red_flags ++
         ["No Recent SEC Filings: " ++
           strJoin ", " (missingFilings st)]) := by
  unfold secFilingFilter
  dsimp only
  split <;> simp [addFlag]

lemma secFilingFilter_disqualified (st : List (String × Bool))
    (res : FilterResults) :
    (secFilingFilter st res).disqualified =
      (res.disqualified || !(missingFilings st).isEmpty) := by
  unfold secFilingFilter
  dsimp only
  split
  · simp [*]
  · simp only [Bool.not_eq_true] at *
    simp [*]

/-- Across the whole pipeline, disqualified is exactly the filing-recency
verdict: no other evaluator ever writes it. -/
lemma applyAllFilters_disqualified (cfg : ScoringConfig) (fcfg : FilterConfig)
    (s : DBState) :
    (applyAllFilters cfg fcfg s).disqualified =
      !(missingFilings s.filing_status).isEmpty := by
  unfold applyAllFilters
  dsimp only
  rw [corporateActionFilter_disqualified, newsRedFlagFilter_disqualified,
    exchangeFilter_disqualified, liquidityFilter_disqualified,
    balanceSheetFilter_disqualified, debtAnalysisFilter_disqualified,
    operatingIncomeFilter_disqualified, fcfConsistencyFilter_disqualified,
    secFilingFilter_disqualified]
  simp [initResults]

/-- The final score field is the aggregator applied to the final flag list. -/
lemma applyAllFilters_quality (cfg : ScoringConfig) (fcfg : FilterConfig)
    (s : DBState) :
    (applyAllFilters cfg fcfg s).quality_score =
      calculateQualityScore cfg (applyAllFilters cfg fcfg s).red_flags := rfl

/-- When a filing type is missing, the filing finding survives to the final
result. -/
lemma sec_flag_mem_applyAllFilters (cfg : ScoringConfig) (fcfg : FilterConfig)
    (s : DBState) (h : (missingFilings s.filing_status).isEmpty = false) :
    ("No Recent SEC Filings: " ++
        strJoin ", " (missingFilings s.filing_status)) ∈
      (applyAllFilters cfg fcfg s).red_flags := by
  unfold applyAllFilters
  dsimp only
  apply mem_corporateActionFilter
  apply mem_newsRedFlagFilter
  apply mem_exchangeFilter
  apply mem_liquidityFilter
  apply mem_balanceSheetFilter
  apply mem_debtAnalysisFilter
  apply mem_operatingIncomeFilter
  apply mem_fcfConsistencyFilter
  rw [secFilingFilter_red_flags, h]
  simp [initResults]

/-! ### Concrete sample data used by the closed theorems below -/

/-- A company row with no red-flag conditions.  In the deployed schema the
split-detection keys are absent from the row, which the evaluators read as
false / 0 / [] through dict.get. -/
def cleanCompany : CompanyRow :=
  { id := 1
    symbol := "ACME"
    exchange := some "NYSE"
    net_debt_ebitda := none
    shareholder_equity := some 1000
    avg_daily_volume := some 100000
    has_recent_splits := false
    split_count := 0
    corporate_action_flags := []
    potential_action_detected := false
    red_flags_list := none
    disqualified_flag := 0
    weschler_quality_score := 0 }

/-- Filing-presence map with every required type present. -/
def allTrueStatus : List (String × Bool) :=
  [("10-K", true), ("10-Q", true), ("8-K", true)]

/-- Filing-presence map with every required type false. -/
def allFalseStatus : List (String × Bool) :=
  [("10-K", false), ("10-Q", false), ("8-K", false)]

/-- A snapshot that produces zero findings. -/
def cleanState : DBState :=
  { company := cleanCompany
    filing_status := allTrueStatus
    cash_flow_stmts := []
    income_stmts := []
    balance_stmts := []
    news_rows := [] }

/-- The clean snapshot with an all-false filing map. -/
def allFalseState : DBState :=
  { cleanState with filing_status := allFalseStatus }

/-- The clean company with only a potential (unconfirmed) corporate-action
detection and the single flag string the backup analysis produces for it. -/
def potentialOnlyCompany : CompanyRow :=
  { cleanCompany with
    potential_action_detected := true
    corporate_action_flags :=
      ["Corporate Action: High Volatility Pattern (Requires Review)"] }

/-- Snapshot for the potential-only corporate-action scenario. -/
def potentialOnlyState : DBState :=
  { cleanState with company := potentialOnlyCompany }

/-- Cash-flow statement rows for the FCF history -10, -20, -15, -25, -30
(oldest to newest), exactly as the fiscal_year DESC LIMIT 5 query returns
them: newest first. -/
def fcfRowsExample : List (Int × StmtData) :=
  [(2023, StmtData.parsed [("Free Cash Flow", -30)]),
   (2022, StmtData.parsed [("Free Cash Flow", -25)]),
   (2021, StmtData.parsed [("Free Cash Flow", -15)]),
   (2020, StmtData.parsed [("Free Cash Flow", -20)]),
   (2019, StmtData.parsed [("Free Cash Flow", -10)])]

/-- The persistent-FCF category label is a substring of every finding the
sub-rule emits. -/
lemma hasSub_persistent (x : String) :
    hasSub ("Persistent Negative FCF: " ++ x) "Persistent Negative FCF"
      = true :=
  hasSub_of_lit _ _ _ (by decide)

/-- The accelerating-trend finding does not carry the persistent-FCF label. -/
lemma accel_not_persistent :
    hasSub "Accelerating Negative FCF Trend" "Persistent Negative FCF"
      = false := by decide

/-- The persistent-FCF finding is present among the FCF evaluator's own
findings exactly when the negative-year count reaches the threshold and at
least 5 years were examined. -/
lemma fcf_any_persistent (th : Nat) (l : List ℚ) (cid : Int) (sym : String) :
    ((fcfConsistencyFilter th l (initResults cid sym)).red_flags.any
        (fun f => hasSub f "Persistent Negative FCF"))
      = decide (th ≤ l.countP (fun x => decide (x < 0)) ∧ 5 ≤ l.length) := by
  unfold fcfConsistencyFilter
  dsimp only
  repeat' split
  all_goals
    simp_all [addFlag, initResults, hasSub_persistent, accel_not_persistent,
      List.isEmpty_iff]

/-- The news evaluator appends exactly one formatted finding per supplied
(keyword, headline) pair, in order. -/
lemma newsRedFlagFilter_red_flags (pairs : List (String × String)) :
    ∀ res : FilterResults,
      (newsRedFlagFilter pairs res).red_flags =
        res.red_flags ++ pairs.map
          (fun p => "News Red Flag - " ++ p.1 ++ ": " ++ strTake p.2 100
            ++ "...") := by
  induction pairs with
  | nil => intro res; simp [newsRedFlagFilter]
  | cons p ps ih =>
    intro res
    simp only [newsRedFlagFilter, List.foldl_cons] at ih ⊢
    rw [ih (addFlag res _)]
    simp [addFlag]

/-- The (keyword, headline) pairs of an arbitrary row list, without the LIMIT
10 of the SQL query; written against the spec sentence that all supplied
items are included, for comparison with getNewsRedFlags. -/
def allNewsPairs (rows : List NewsRow) : List (String × String) :=
  rows.foldl
    (fun acc r =>
      match r.keywords with
      | none => acc
      | some kws => acc ++ kws.map fun k => (k, r.headline))
    []

/-- Every candidate key absent means the extraction falls through to 0.0. -/
lemma extract_eq_zero (keys : List String) (items : List (String × ℚ))
    (h : (keys.all fun k => (items.lookup k).isNone) = true) :
    extractFromStatement keys items = 0 := by
  induction keys with
  | nil => rfl
  | cons k ks ih =>
    simp only [List.all_cons, Bool.and_eq_true] at h
    unfold extractFromStatement
    rcases hk : items.lookup k with _ | v
    · exact ih h.2
    · rw [hk] at h
      simp at h

/-- When no iteration raises, the batch loop counts successes and failures
and runs to the end of the company list. -/
lemma batchLoop_no_raised (total : Nat) :
    ∀ (outcomes : List RunOutcome) (p e : Nat),
      (outcomes.all fun o => !outcomeRaised o) = true →
      batchLoop total p e outcomes =
        { processed := p + outcomes.countP outcomeIsSuccess
          errors := e + outcomes.countP fun o => !outcomeIsSuccess o
          total := some total } := by
  intro outcomes
  induction outcomes with
  | nil => intro p e _; simp [batchLoop]
  | cons o os ih =>
    intro p e h
    simp only [List.all_cons, Bool.and_eq_true] at h
    cases o with
    | ok r =>
      show batchLoop total (p + 1) e os = _
      rw [ih _ _ h.2]
      simp [List.countP_cons, outcomeIsSuccess, BatchSummary.mk.injEq]
      all_goals omega
    | empty =>
      show batchLoop total p (e + 1) os = _
      rw [ih _ _ h.2]
      simp [List.countP_cons, outcomeIsSuccess, BatchSummary.mk.injEq]
      all_goals omega
    | raised => simp [outcomeRaised] at h

/-- An exception anywhere in the batch aborts it with the outer-handler
summary, whatever was already counted and whatever companies remain. -/
lemma batchLoop_raised (total : Nat) :
    ∀ (pre : List RunOutcome) (p e : Nat) (post : List RunOutcome),
      batchLoop total p e (pre ++ RunOutcome.raised :: post)
        = { processed := 0, errors := 1, total := none } := by
  intro pre
  induction pre with
  | nil => intro p e post; rfl
  | cons o os ih =>
    intro p e post
    cases o with
    | ok r => exact ih (p + 1) e post
    | empty => exact ih p (e + 1) post
    | raised => rfl

/-- Success and failure counts partition the outcome list. -/
lemma countP_split (outcomes : List RunOutcome) :
    outcomes.countP outcomeIsSuccess
      + outcomes.countP (fun o => !outcomeIsSuccess o) = outcomes.length := by
  induction outcomes with
  | nil => rfl
  | cons o os ih =>
    simp only [List.countP_cons, List.length_cons]
    rcases h : outcomeIsSuccess o with _ | _ <;> simp [h] <;> omega

/-! ### Claim theorems -/

/-- C7: the FCF consistency evaluator emits the Persistent Negative FCF
finding exactly when the negative-year count reaches the configured threshold
and at least 5 years were examined; in particular the history -10, -5, -3,
+2, +8 (oldest to newest, hence 8, 2, -3, -5, -10 as the newest-first rows)
under the default threshold 4 yields no such finding, and neither does any
history of fewer than 5 years. -/
theorem persistentNegativeFcfThreshold (th : Nat) (l : List ℚ) (cid : Int)
    (sym : String) :
    (((fcfConsistencyFilter th l (initResults cid sym)).red_flags.any
        fun f => hasSub f "Persistent Negative FCF")
      = decide (th ≤ l.countP (fun x => decide (x < 0)) ∧ 5 ≤ l.length))
  ∧ (((fcfConsistencyFilter
        defaultFilterConfig.fcf_negative_years_threshold
        [8, 2, -3, -5, -10] (initResults cid sym)).red_flags.any
          fun f => hasSub f "Persistent Negative FCF") = false) :=
  ⟨fcf_any_persistent th l cid sym,
   (fcf_any_persistent defaultFilterConfig.fcf_negative_years_threshold
      [8, 2, -3, -5, -10] cid sym).trans (by decide)⟩

/-- C2 (code behavior at the claimed input): the fiscal_year DESC query hands
the evaluator the history -10, -20, -15, -25, -30 (oldest to newest) as the
newest-first list -30, -25, -15, -20, -10; the Python slice fcf_data[-3:]
therefore examines the three OLDEST years -15, -20, -10, the comparison
recent_fcf[-1] < recent_fcf[0] is -10 < -15 which is false, and so the
Accelerating Negative FCF Trend finding is NOT emitted even though the three
most recent years -15, -25, -30 are all negative with -30 < -15.  Only the
persistent finding appears. -/
theorem fcfAccelerationCodeBehavior :
    (getHistoricalFcfData fcfRowsExample
      = [(2023, -30), (2022, -25), (2021, -15), (2020, -20), (2019, -10)])
  ∧ ((fcfConsistencyFilter defaultFilterConfig.fcf_negative_years_threshold
        ((getHistoricalFcfData fcfRowsExample).map Prod.snd)
        (initResults 1 "ACME")).red_flags
      = ["Persistent Negative FCF: 5/5 years"])
  ∧ (((fcfConsistencyFilter defaultFilterConfig.fcf_negative_years_threshold
        ((getHistoricalFcfData fcfRowsExample).map Prod.snd)
        (initResults 1 "ACME")).red_flags.contains
          "Accelerating Negative FCF Trend") = false) := by
  decide

/-- C4: when a numeric field a rule needs is absent (SQL NULL, or an empty
historical series), the rule abstains and emits no finding for that
sub-check; absence is not treated as zero -- an actual stored zero volume,
by contrast, does produce the Low Trading Volume finding. -/
theorem absentNumericFieldAbstains (minVol : Int) (maxD : ℚ)
    (g : Option (ℚ × ℚ)) (th : Nat) (res : FilterResults) :
    (liquidityFilter minVol none res = res)
  ∧ (balanceSheetFilter none res = res)
  ∧ (highDebtCheck maxD none res = res)
  ∧ (debtAnalysisFilter maxD none g res = rapidDebtGrowthCheck g res)
  ∧ (fcfConsistencyFilter th [] res = res)
  ∧ (operatingIncomeFilter th [] res = res)
  ∧ (exchangeFilter none res = res)
  ∧ ((liquidityFilter defaultFilterConfig.min_trading_volume (some 0)
        res).red_flags
      = res.red_flags ++ ["Low Trading Volume: 0 shares/day"]) := by
  refine ⟨rfl, rfl, rfl, rfl, rfl, rfl, rfl, ?_⟩
  simp only [liquidityFilter, addFlag, defaultFilterConfig]
  norm_num
  decide

/-- C9: a second orchestrator run on the state persisted by the first run
reproduces the first result exactly (same findings in the same order, same
score, same disqualification) and re-persists the same state: the write only
touches the red_flags_list, disqualified_flag and weschler_quality_score
columns, none of which any evaluator reads. -/
theorem screeningIdempotent (cfg : ScoringConfig) (fcfg : FilterConfig)
    (s : DBState) :
    ((runScreening cfg fcfg (runScreening cfg fcfg s).2).1
      = (runScreening cfg fcfg s).1)
  ∧ ((runScreening cfg fcfg (runScreening cfg fcfg s).2).2
      = (runScreening cfg fcfg s).2) :=
  ⟨rfl, rfl⟩

/-- C3: for every snapshot and filing-presence map, disqualified is exactly
the presence of a missing required filing type (so no evaluator other than
filing recency ever sets it); when some type is missing the filing evaluator
emits exactly one finding naming all missing types, and that finding survives
to the final result. -/
theorem filingRecencyDisqualification (cfg : ScoringConfig)
    (fcfg : FilterConfig) (s : DBState) :
    ((applyAllFilters cfg fcfg s).disqualified
      = !(missingFilings s.filing_status).isEmpty)
  ∧ ((secFilingFilter s.filing_status
        (initResults s.company.id s.company.symbol)).red_flags
      = (if (missingFilings s.filing_status).isEmpty then []
         else ["No Recent SEC Filings: "
            ++ strJoin ", " (missingFilings s.filing_status)]))
  ∧ ((missingFilings s.filing_status).isEmpty = false →
      ("No Recent SEC Filings: "
          ++ strJoin ", " (missingFilings s.filing_status))
        ∈ (applyAllFilters cfg fcfg s).red_flags) := by
  refine ⟨applyAllFilters_disqualified cfg fcfg s, ?_,
    sec_flag_mem_applyAllFilters cfg fcfg s⟩
  rw [secFilingFilter_red_flags]
  split <;> simp [initResults]

/-- C3 witness: the all-false filing map disqualifies and names all three
required types in the single filing finding. -/
theorem filingRecencyDisqualificationWitness :
    ((applyAllFilters defaultScoringConfig defaultFilterConfig
        allFalseState).disqualified = true)
  ∧ ("No Recent SEC Filings: 10-K, 10-Q, 8-K"
      ∈ (applyAllFilters defaultScoringConfig defaultFilterConfig
          allFalseState).red_flags) := by
  have h := filingRecencyDisqualification defaultScoringConfig
    defaultFilterConfig allFalseState
  refine ⟨h.1.trans (by decide), ?_⟩
  have h3 := h.2.2 (by decide)
  exact (by decide : ("No Recent SEC Filings: "
    ++ strJoin ", " (missingFilings allFalseState.filing_status))
      = "No Recent SEC Filings: 10-K, 10-Q, 8-K") ▸ h3

/-- C6: a screening that accumulates no red flags scores exactly 100 and is
not disqualified. -/
theorem zeroRedFlagsPerfectScore (cfg : ScoringConfig) (fcfg : FilterConfig)
    (s : DBState)
    (h : (applyAllFilters cfg fcfg s).red_flags = []) :
    ((applyAllFilters cfg fcfg s).quality_score = 100)
  ∧ ((applyAllFilters cfg fcfg s).disqualified = false) := by
  constructor
  · rw [applyAllFilters_quality, h]
    rfl
  · rw [applyAllFilters_disqualified]
    rcases hEmpty : (missingFilings s.filing_status).isEmpty with _ | _
    · have hm := sec_flag_mem_applyAllFilters cfg fcfg s hEmpty
      rw [h] at hm
      exact absurd hm (List.not_mem_nil _)
    · simp

/-- C6 witness: a concrete clean snapshot accumulates no flags, scores 100
and is not disqualified. -/
theorem zeroRedFlagsPerfectScoreWitness :
    ((applyAllFilters defaultScoringConfig defaultFilterConfig
        cleanState).quality_score = 100)
  ∧ ((applyAllFilters defaultScoringConfig defaultFilterConfig
        cleanState).disqualified = false) :=
  zeroRedFlagsPerfectScore defaultScoringConfig defaultFilterConfig
    cleanState (by decide)

/-- C10: a statement row whose JSON parses but holds none of the recognized
FCF (or operating-income) line items extracts exactly 0.0; the fiscal year is
therefore kept in the parsed series (counted in the total-years denominator)
with value 0, which the consistency rules count as a non-negative year. -/
theorem missingLineItemExtractionZero (fy : Int) (items : List (String × ℚ))
    (rows : List (Int × StmtData)) :
    ((fcfItems.all fun k => (items.lookup k).isNone) = true →
        (extractFromStatement fcfItems items = 0)
      ∧ (parseFcfRows ((fy, StmtData.parsed items) :: rows)
          = (fy, 0) :: parseFcfRows rows)
      ∧ ((parseFcfRows ((fy, StmtData.parsed items) :: rows)).length
          = (parseFcfRows rows).length + 1)
      ∧ (((parseFcfRows ((fy, StmtData.parsed items) :: rows)).map
            Prod.snd).countP (fun x => decide (x < 0))
          = ((parseFcfRows rows).map Prod.snd).countP
              fun x => decide (x < 0)))
  ∧ ((operatingItems.all fun k => (items.lookup k).isNone) = true →
        (extractFromStatement operatingItems items = 0)
      ∧ (parseOperatingRows ((fy, StmtData.parsed items) :: rows)
          = (fy, 0) :: parseOperatingRows rows)) := by
  constructor
  · intro h
    have hz := extract_eq_zero fcfItems items h
    have hp : parseFcfRows ((fy, StmtData.parsed items) :: rows)
        = (fy, 0) :: parseFcfRows rows := by
      simp [parseFcfRows, hz]
    refine ⟨hz, hp, ?_, ?_⟩
    · rw [hp]; simp
    · rw [hp]; simp
  · intro h
    have hz := extract_eq_zero operatingItems items h
    exact ⟨hz, by simp [parseOperatingRows, hz]⟩

/-- C10 witness: a parsed cash-flow statement holding only an unrecognized
line item extracts 0.0 and is kept in the series as a non-negative year. -/
theorem missingLineItemExtractionZeroWitness :
    (extractFromStatement fcfItems [("Net Income", -50)] = 0)
  ∧ (parseFcfRows [(2023, StmtData.parsed [("Net Income", -50)])]
      = [(2023, 0)])
  ∧ (extractFromStatement operatingItems [("Net Income", -50)] = 0) := by
  have h := missingLineItemExtractionZero 2023 [("Net Income", -50)] []
  have h1 := h.1 (by decide)
  have h2 := h.2 (by decide)
  exact ⟨h1.1, h1.2.1, h2.1⟩

/-- C5 (amended): the news evaluator emits exactly one finding per (keyword,
headline) pair, in the supplied most-recent-first order, with the headline
truncated to 100 characters -- but only over the 10 newest supplied news
items (the SQL LIMIT 10); when at most 10 items are supplied this coincides
with all of them. -/
theorem newsRedFlagAmendedClaim (rows : List NewsRow) (res : FilterResults) :
    ((newsRedFlagFilter (getNewsRedFlags rows) res).red_flags
      = res.red_flags ++ (getNewsRedFlags rows).map
          fun p => "News Red Flag - " ++ p.1 ++ ": " ++ strTake p.2 100
            ++ "...")
  ∧ (getNewsRedFlags rows = allNewsPairs (rows.take 10))
  ∧ (rows.length ≤ 10 → getNewsRedFlags rows = allNewsPairs rows) := by
  refine ⟨newsRedFlagFilter_red_flags (getNewsRedFlags rows) res, rfl, ?_⟩
  intro h
  show allNewsPairs (rows.take 10) = allNewsPairs rows
  rw [List.take_of_length_le h]

/-- C5 witness: a single supplied item yields exactly its one finding with
the truncated headline. -/
theorem newsRedFlagAmendedWitness :
    (getNewsRedFlags [{ headline := "H1", keywords := some ["fraud"] }]
      = allNewsPairs [{ headline := "H1", keywords := some ["fraud"] }])
  ∧ ((newsRedFlagFilter
        (getNewsRedFlags [{ headline := "H1", keywords := some ["fraud"] }])
        (initResults 1 "ACME")).red_flags
      = ["News Red Flag - fraud: H1..."]) := by
  have h := newsRedFlagAmendedClaim
    [{ headline := "H1", keywords := some ["fraud"] }] (initResults 1 "ACME")
  exact ⟨h.2.2 (by decide), h.1.trans (by decide)⟩

/-- Eleven supplied single-keyword news items, newest first. -/
def elevenNewsRows : List NewsRow :=
  List.replicate 11 { headline := "Headline", keywords := some ["fraud"] }

/-- C5 counterexample: with 11 supplied (keyword, headline) pairs the
evaluator emits only 10 findings: the count is bounded by the LIMIT 10 of the
news query, not unbounded as claimed. -/
theorem newsRedFlagCounterexample :
    (elevenNewsRows.length = 11)
  ∧ ((allNewsPairs elevenNewsRows).length = 11)
  ∧ (((newsRedFlagFilter (getNewsRedFlags elevenNewsRows)
        (initResults 1 "ACME")).red_flags).length = 10) := by
  decide

/-- C8 (amended): for every nonempty collection in which no screening raises,
the batch runner invokes the orchestrator once per identifier sequentially,
counts each truthy result as processed and each empty result (e.g. a failing
snapshot load) as an error while continuing with the remaining companies, and
returns a summary whose processed and error counts partition the collection
and whose total is the collection size.  An exception in any company,
however, aborts the batch: the in-loop handler increments the error count but
itself raises AttributeError (sqlite3.Row has no .get), so the outer handler
returns the literal summary processed 0, errors 1 with no total, regardless
of what preceded or follows; the empty collection likewise early-returns
processed 0, errors 0 with no total. -/
theorem batchRunnerAmendedClaim (outcomes pre post : List RunOutcome)
    (h : outcomes ≠ [])
    (hr : (outcomes.all fun o => !outcomeRaised o) = true) :
    ((processAllCompanies outcomes).processed
      = outcomes.countP outcomeIsSuccess)
  ∧ ((processAllCompanies outcomes).errors
      = outcomes.countP fun o => !outcomeIsSuccess o)
  ∧ ((processAllCompanies outcomes).total = some outcomes.length)
  ∧ ((processAllCompanies outcomes).processed
      + (processAllCompanies outcomes).errors = outcomes.length)
  ∧ (processAllCompanies (pre ++ RunOutcome.raised :: post)
      = { processed := 0, errors := 1, total := none }) := by
  have hne : outcomes.isEmpty = false := by
    cases outcomes with
    | nil => exact absurd rfl h
    | cons o os => rfl
  have hmain : processAllCompanies outcomes =
      { processed := outcomes.countP outcomeIsSuccess
        errors := outcomes.countP fun o => !outcomeIsSuccess o
        total := some outcomes.length } := by
    unfold processAllCompanies
    rw [hne]
    simp only [Bool.false_eq_true, if_false]
    rw [batchLoop_no_raised outcomes.length outcomes 0 0 hr]
    simp
  have habort : processAllCompanies (pre ++ RunOutcome.raised :: post)
      = { processed := 0, errors := 1, total := none } := by
    have hne2 : (pre ++ RunOutcome.raised :: post).isEmpty = false := by
      cases pre <;> rfl
    unfold processAllCompanies
    rw [hne2]
    simp only [Bool.false_eq_true, if_false]
    exact batchLoop_raised _ pre 0 0 post
  rw [hmain]
  exact ⟨rfl, rfl, rfl, countP_split outcomes, habort⟩

/-- Five per-company outcomes with exactly one failing (empty-result)
screening. -/
def fiveOutcomes : List RunOutcome :=
  [RunOutcome.ok (initResults 1 "A"), RunOutcome.ok (initResults 2 "B"),
   RunOutcome.empty, RunOutcome.ok (initResults 4 "D"),
   RunOutcome.ok (initResults 5 "E")]

/-- Five per-company outcomes where the third screening raises an
exception. -/
def fiveOutcomesRaised : List RunOutcome :=
  [RunOutcome.ok (initResults 1 "A"), RunOutcome.ok (initResults 2 "B"),
   RunOutcome.raised, RunOutcome.ok (initResults 4 "D"),
   RunOutcome.ok (initResults 5 "E")]

/-- C8 witness: five companies whose third screening yields the empty result
of a failing snapshot load give processed 4, errors 1, total 5, while an
exception in the third of five companies returns the aborted outer-handler
summary. -/
theorem batchRunnerAmendedWitness :
    ((processAllCompanies fiveOutcomes).processed = 4)
  ∧ ((processAllCompanies fiveOutcomes).errors = 1)
  ∧ ((processAllCompanies fiveOutcomes).total = some 5)
  ∧ (processAllCompanies fiveOutcomesRaised
      = { processed := 0, errors := 1, total := none }) := by
  have h := batchRunnerAmendedClaim fiveOutcomes
    [RunOutcome.ok (initResults 1 "A"), RunOutcome.ok (initResults 2 "B")]
    [RunOutcome.ok (initResults 4 "D"), RunOutcome.ok (initResults 5 "E")]
    (by simp [fiveOutcomes]) (by decide)
  exact ⟨h.1.trans (by decide), h.2.1.trans (by decide),
    h.2.2.1.trans (by decide), h.2.2.2.2⟩

/-- C8 counterexample: an exception in company 3 of 5 is NOT tolerated -- the
in-loop handler crashes on sqlite3.Row.get, the remaining two companies are
never screened, and the outer handler returns processed 0, errors 1 with no
total, where the claim demands processed 4, errors 1, total 5 with
processing continuing; the empty collection also lacks the claimed total
count. -/
theorem batchRunnerCounterexample :
    ((processAllCompanies fiveOutcomesRaised).processed = 0)
  ∧ ((processAllCompanies fiveOutcomesRaised).errors = 1)
  ∧ ((processAllCompanies fiveOutcomesRaised).total = none)
  ∧ ((processAllCompanies []).total = none) :=
  ⟨rfl, rfl, rfl, rfl⟩

/-- C1 (amended): the corporate-action evaluator computes and stores the
per-evaluation penalty (the full configured value for a confirmed action, its
Python floor division by 2 for a potential-only detection, so -5 gives -3,
not -2), but the score aggregator never reads that stored value: the final
score is always the substring classification of the red-flag list, in which
every flag carrying the Corporate Action label adds the single static
configured corporate-action penalty. -/
theorem corporateActionPenaltyAmendedClaim (cfg : ScoringConfig)
    (fcfg : FilterConfig) (c : CompanyRow) (res : FilterResults)
    (s : DBState) :
    (c.has_recent_splits = true → 0 < c.split_count →
      (corporateActionFilter cfg c res).corporate_action_penalty
        = some cfg.corporate_action_penalty)
  ∧ (c.has_recent_splits = false → c.potential_action_detected = true →
      (corporateActionFilter cfg c res).corporate_action_penalty
        = some (Int.fdiv cfg.corporate_action_penalty 2))
  ∧ ((applyAllFilters cfg fcfg s).quality_score
      = calculateQualityScore cfg (applyAllFilters cfg fcfg s).red_flags)
  ∧ (flagPenalty cfg
        "Corporate Action: High Volatility Pattern (Requires Review)"
      = cfg.corporate_action_penalty)
  ∧ (Int.fdiv (-5 : Int) 2 = -3) := by
  refine ⟨?_, ?_, applyAllFilters_quality cfg fcfg s, rfl, by decide⟩
  · intro h1 h2
    simp [corporateActionFilter, h1, h2]
  · intro h1 h2
    simp [corporateActionFilter, h1, h2]

/-- The clean company with a confirmed corporate action. -/
def confirmedCompany : CompanyRow :=
  { cleanCompany with
    has_recent_splits := true
    split_count := 2
    corporate_action_flags := ["Corporate Action: Stock Split"] }

/-- C1 witness: the confirmed scenario stores the full default penalty -5 and
the potential-only scenario stores -5 floor-divided by 2, namely -3. -/
theorem corporateActionPenaltyAmendedWitness :
    ((corporateActionFilter defaultScoringConfig confirmedCompany
        (initResults 1 "ACME")).corporate_action_penalty = some (-5))
  ∧ ((corporateActionFilter defaultScoringConfig potentialOnlyCompany
        (initResults 1 "ACME")).corporate_action_penalty = some (-3)) := by
  have hc := corporateActionPenaltyAmendedClaim defaultScoringConfig
    defaultFilterConfig confirmedCompany (initResults 1 "ACME") cleanState
  have hp := corporateActionPenaltyAmendedClaim defaultScoringConfig
    defaultFilterConfig potentialOnlyCompany (initResults 1 "ACME")
    potentialOnlyState
  exact ⟨(hc.1 (by decide) (by decide)).trans (by decide),
    (hp.2.1 (by decide) (by decide)).trans (by decide)⟩

/-- C1 counterexample: with the default penalty -5 and a potential-only
detection carrying its single backup-analysis flag, the final quality score
is 95, i.e. the aggregator charged the full static -5 for the flag (a -2
contribution would give 98), and the stored per-evaluation half penalty is
-3, not -2: the claim that the score uses the per-evaluation value (-2 for
potential-only) is false on both counts. -/
theorem corporateActionPenaltyCounterexample :
    ((applyAllFilters defaultScoringConfig defaultFilterConfig
        potentialOnlyState).red_flags
      = ["Corporate Action: High Volatility Pattern (Requires Review)"])
  ∧ ((applyAllFilters defaultScoringConfig defaultFilterConfig
        potentialOnlyState).quality_score = 95)
  ∧ ((applyAllFilters defaultScoringConfig defaultFilterConfig
        potentialOnlyState).corporate_action_penalty = some (-3)) := by
  decide
